import Mathlib

/-!
Verification of the webhook-events query/filter resolution engine and
delivery-attempt retry coordinator of `crates/api_models/src/webhook_events.rs`.

The source slice declares the data shapes (`EventListConstraints`,
`EventListConstraintsInternal`, `EventListItemResponse`, `TotalEventsResponse`,
`OutgoingWebhookRequestContent`, `OutgoingWebhookResponseContent`, the internal
request wrappers and their `ApiEventMetric` implementations).  The behavioural
components (Filter Resolver, Event Lister, Delivery Attempt Chain resolution,
Retry Coordinator) are not part of the slice; they are modelled here from the
specification and are marked as such in their doc comments.

Conventions of the embedding:
* `PrimitiveDateTime` is modelled as `Nat` (a point on a discrete time line);
* `u16` fields are `Nat` values (bounded by `2 ^ 16` where it matters) and
  `i64` fields are `Int`;
* `HashSet` fields are modelled as `List` used with membership semantics;
* identifier newtypes (`MerchantId`, `ProfileId`) are modelled as `String`.
-/

/-- Modelled from the spec: the `masking` crate's `Secret` wrapper is not in
the source slice.  It is an opaque wrapper carrying a sensitive value through
typed accessors. -/
structure Secret (α : Type) where
  value : α
  deriving DecidableEq, Repr

/-- Modelled from the spec: `EventClass` lives in the external `common_enums`
crate (not in the source slice).  Coarse object kind; representative
constructors. -/
inductive EventClass where
  | Payments
  | Refunds
  | Disputes
  | Mandates
  deriving DecidableEq, BEq, Repr

/-- Modelled from the spec: `EventType` lives in the external `common_enums`
crate (not in the source slice).  Fine-grained object+status; representative
constructors. -/
inductive EventType where
  | PaymentSucceeded
  | PaymentFailed
  | PaymentProcessing
  | RefundSucceeded
  | RefundFailed
  | DisputeOpened
  deriving DecidableEq, BEq, Repr

/-- The constraints to apply when filtering events
(`EventListConstraints` in the source). -/
structure EventListConstraints where
  created_after : Option Nat
  created_before : Option Nat
  limit : Option Nat
  offset : Option Nat
  object_id : Option String
  profile_id : Option String
  event_classes : Option (List EventClass)
  event_types : Option (List EventType)
  is_delivered : Option Bool
  deriving DecidableEq, Repr

/-- The two mutually exclusive resolved lookup strategies
(`EventListConstraintsInternal` in the source).  `limit` and `offset` are
`i64` in the source, modelled as `Int`. -/
inductive EventListConstraintsInternal where
  | GenericFilter
      (created_after : Option Nat)
      (created_before : Option Nat)
      (limit : Option Int)
      (offset : Option Int)
      (event_classes : Option (List EventClass))
      (event_types : Option (List EventType))
      (is_delivered : Option Bool)
  | ObjectIdFilter (object_id : String)
  deriving DecidableEq, Repr

/-- A string consisting only of whitespace (in particular the empty string):
the spec's "empty (post-trim)" condition on `object_id`. -/
def isBlankString (s : String) : Bool :=
  s.toList.all Char.isWhitespace

/-- Modelled from the spec: the Filter Resolver itself is not in the source
slice (only the `EventListConstraints` and `EventListConstraintsInternal` data
shapes are).  Per the spec: a present, non-empty (post-trim) `object_id`
resolves to `ObjectIdFilter` and every other field is discarded; otherwise the
constraints resolve to `GenericFilter`, carrying all present fields through,
with `limit`/`offset` widened from the unsigned 16-bit range to the signed
64-bit range.  The resolver is total. -/
def resolveConstraints (c : EventListConstraints) : EventListConstraintsInternal :=
  match c.object_id with
  | some oid =>
      if isBlankString oid then
        .GenericFilter c.created_after c.created_before
          (c.limit.map Int.ofNat) (c.offset.map Int.ofNat)
          c.event_classes c.event_types c.is_delivered
      else
        .ObjectIdFilter oid
  | none =>
      .GenericFilter c.created_after c.created_before
        (c.limit.map Int.ofNat) (c.offset.map Int.ofNat)
        c.event_classes c.event_types c.is_delivered

/-- The request information (headers and body) sent in the webhook
(`OutgoingWebhookRequestContent` in the source). -/
structure OutgoingWebhookRequestContent where
  body : Secret String
  headers : List (String × Secret String)
  deriving DecidableEq, Repr

/-- The response information (headers, body and status code) received for the
webhook sent (`OutgoingWebhookResponseContent` in the source).  `status_code`
is `u16` in the source, modelled as `Nat`. -/
structure OutgoingWebhookResponseContent where
  body : Option (Secret String)
  headers : Option (List (String × Secret String))
  status_code : Option Nat
  error_message : Option String
  deriving DecidableEq, Repr

/-- Modelled from the spec: the persisted Event row of the Event Store is not
in the source slice (the slice only declares the response shape
`EventListItemResponse`).  One row exists per delivery attempt; attempts that
retry the same logical occurrence share `initial_attempt_id` but have distinct
`event_id`.  The attempt's request and response content are carried on the
row. -/
structure Event where
  event_id : String
  merchant_id : String
  profile_id : String
  object_id : String
  event_type : EventType
  event_class : EventClass
  is_delivery_successful : Option Bool
  initial_attempt_id : String
  created : Nat
  request : OutgoingWebhookRequestContent
  response : OutgoingWebhookResponseContent
  deriving DecidableEq, Repr

/-- The response body for each item when listing events
(`EventListItemResponse` in the source). -/
structure EventListItemResponse where
  event_id : String
  merchant_id : String
  profile_id : String
  object_id : String
  event_type : EventType
  event_class : EventClass
  is_delivery_successful : Option Bool
  initial_attempt_id : String
  created : Nat
  deriving DecidableEq, Repr

/-- Projection of a stored Event row onto the listing response shape. -/
def Event.toListItem (e : Event) : EventListItemResponse :=
  { event_id := e.event_id
    merchant_id := e.merchant_id
    profile_id := e.profile_id
    object_id := e.object_id
    event_type := e.event_type
    event_class := e.event_class
    is_delivery_successful := e.is_delivery_successful
    initial_attempt_id := e.initial_attempt_id
    created := e.created }

/-- The response body of the list initial delivery attempts api call
(`TotalEventsResponse` in the source).  `total_count` is `i64` in the
source. -/
structure TotalEventsResponse where
  events : List EventListItemResponse
  total_count : Int
  deriving DecidableEq, Repr

/-- `TotalEventsResponse::new` from the source. -/
def TotalEventsResponse.new (total_count : Int)
    (events : List EventListItemResponse) : TotalEventsResponse :=
  { events := events, total_count := total_count }

/-- The `ApiEventsType` variant used by this module; the full enum lives in
the external `common_utils` crate (not in the source slice). -/
inductive ApiEventsType where
  | Events (merchant_id : String)
  deriving DecidableEq, Repr

/-- `TotalEventsResponse`'s `ApiEventMetric::get_api_event_type` from the
source: `Some(Events { merchant_id: self.events.first().map(|event|
event.merchant_id.clone())? })` — the `?` makes the whole call return `None`
when `events` is empty. -/
def TotalEventsResponse.get_api_event_type
    (r : TotalEventsResponse) : Option ApiEventsType :=
  match r.events.head?.map fun event => event.merchant_id with
  | none => none
  | some merchant_id => some (.Events merchant_id)

/-- Insert an element into a list so that, if the list was sorted by the
boolean relation `le`, the result stays sorted. -/
def insertLe {α : Type} (le : α → α → Bool) (a : α) : List α → List α
  | [] => [a]
  | b :: bs => if le a b then a :: b :: bs else b :: insertLe le a bs

/-- Insertion sort by the boolean relation `le`.  Used to model the Event
Store's ORDER BY clauses. -/
def sortLe {α : Type} (le : α → α → Bool) : List α → List α
  | [] => []
  | a :: as => insertLe le a (sortLe le as)

/-- Ascending-by-creation-time order on events. -/
def createdAsc (a b : Event) : Bool := a.created ≤ b.created

/-- Descending-by-creation-time order on events (most recent first). -/
def createdDesc (a b : Event) : Bool := b.created ≤ a.created

/-- Whether an event satisfies all the AND-combined predicates of a generic
filter: time-range bounds, class/type set membership, delivery-success flag.
An absent predicate matches everything. -/
def matchesGeneric (created_after created_before : Option Nat)
    (event_classes : Option (List EventClass))
    (event_types : Option (List EventType))
    (is_delivered : Option Bool) (e : Event) : Bool :=
  (match created_after with
   | none => true
   | some t => decide (t ≤ e.created)) &&
  (match created_before with
   | none => true
   | some t => decide (e.created ≤ t)) &&
  (match event_classes with
   | none => true
   | some cs => cs.contains e.event_class) &&
  (match event_types with
   | none => true
   | some ts => ts.contains e.event_type) &&
  (match is_delivered with
   | none => true
   | some b => e.is_delivery_successful == some b)

/-- The effective number of skipped rows: an absent `offset` means zero. -/
def effectiveOffset (offset : Option Int) : Nat :=
  (offset.getD 0).toNat

/-- The effective page size: an absent `limit` means the store's default page
size. -/
def effectiveLimit (limit : Option Int) (default_limit : Nat) : Nat :=
  (limit.map Int.toNat).getD default_limit

/-- Modelled from the spec: the Event Lister is not in the source slice (the
slice only declares the request/response shapes).  `list(merchant_id,
strategy)` always scopes by `merchant_id` first.  For `GenericFilter` it
AND-combines the predicates, orders by creation time descending, applies
`offset` then `limit`, and reports `total_count` as the number of matching
rows before pagination.  For `ObjectIdFilter` it returns all events with the
object id under the merchant scope, ordered by creation time ascending, with
no pagination, and `total_count` equal to the number of returned rows. -/
def listEvents (default_limit : Nat) (merchant_id : String)
    (strategy : EventListConstraintsInternal) (store : List Event) :
    TotalEventsResponse :=
  match strategy with
  | .GenericFilter created_after created_before limit offset event_classes
      event_types is_delivered =>
      let matching := store.filter fun e =>
        e.merchant_id == merchant_id &&
          matchesGeneric created_after created_before event_classes
            event_types is_delivered e
      let page :=
        ((sortLe createdDesc matching).drop (effectiveOffset offset)).take
          (effectiveLimit limit default_limit)
      TotalEventsResponse.new (matching.length) (page.map Event.toListItem)
  | .ObjectIdFilter object_id =>
      let matching := store.filter fun e =>
        e.merchant_id == merchant_id && e.object_id == object_id
      let rows := sortLe createdAsc matching
      TotalEventsResponse.new (rows.length) (rows.map Event.toListItem)

/-- Modelled from the spec: Delivery Attempt Chain resolution is not in the
source slice.  `attempts_for(initial_attempt_id, merchant_id)` is the ordered
sequence of events sharing one `initial_attempt_id` under the merchant scope,
ascending by creation time. -/
def attempts_for (store : List Event)
    (initial_attempt_id merchant_id : String) : List Event :=
  sortLe createdAsc (store.filter fun e =>
    e.merchant_id == merchant_id &&
      e.initial_attempt_id == initial_attempt_id)

/-- Modelled from the spec: the Event Store's chain invariant, not in the
source slice.  Every stored attempt's chain contains its initial attempt: a
row whose `event_id` equals the chain's shared `initial_attempt_id` (and whose
own `initial_attempt_id` equals its own `event_id`), owned by the same
merchant, and created strictly before every later attempt of the chain. -/
def WellFormedStore (store : List Event) : Prop :=
  ∀ e ∈ store, ∃ e0 ∈ store,
    e0.event_id = e.initial_attempt_id ∧
    e0.initial_attempt_id = e0.event_id ∧
    e0.merchant_id = e.merchant_id ∧
    (e.event_id ≠ e0.event_id → e0.created < e.created)

/-- Modelled from the spec: the Retry Coordinator's per-event state machine is
not in the source slice.  (`RetryScheduled` is transient and externally reuses
`Pending`'s visibility, so it does not appear as a distinct observable
state.) -/
inductive DeliveryState where
  | Pending
  | Delivered
  | Failed
  deriving DecidableEq, Repr

/-- Whether any response field is populated: per the spec, all response fields
are simultaneously absent exactly while the attempt has not yet completed. -/
def responseCompleted (r : OutgoingWebhookResponseContent) : Bool :=
  r.body.isSome || r.headers.isSome || r.status_code.isSome ||
    r.error_message.isSome

/-- The HTTP success range. -/
def isSuccessStatus (code : Nat) : Bool :=
  200 ≤ code && code ≤ 299

/-- Whether a response indicates successful delivery: status code in the
success range and no error message. -/
def responseDelivered (r : OutgoingWebhookResponseContent) : Bool :=
  (match r.status_code with
   | some code => isSuccessStatus code
   | none => false) &&
  r.error_message.isNone

/-- Modelled from the spec: the state of one delivery attempt.  `Pending`
while no response field is populated; `Delivered` when the response indicates
success; `Failed` when it completed with a non-success status code or a
transport error message. -/
def attemptState (e : Event) : DeliveryState :=
  if responseCompleted e.response then
    if responseDelivered e.response then .Delivered else .Failed
  else .Pending

/-- The response content of an attempt that has not yet completed: every
field absent. -/
def pendingResponse : OutgoingWebhookResponseContent :=
  { body := none, headers := none, status_code := none, error_message := none }

/-- Modelled from the spec: the transport collaborator's outcome for one
delivery — success, HTTP error, or transport failure. -/
inductive TransportOutcome where
  | success (status_code : Nat) (body : Option (Secret String))
      (headers : Option (List (String × Secret String)))
  | httpError (status_code : Nat) (body : Option (Secret String))
      (headers : Option (List (String × Secret String)))
  | transportFailure (error_message : String)
  deriving DecidableEq, Repr

/-- Modelled from the spec: the response content recorded when the transport
returns an outcome.  A success or HTTP error records the received status code
(and any body/headers); a transport failure records the error message. -/
def responseOfOutcome : TransportOutcome → OutgoingWebhookResponseContent
  | .success status_code body headers =>
      { body := body, headers := headers, status_code := some status_code,
        error_message := none }
  | .httpError status_code body headers =>
      { body := body, headers := headers, status_code := some status_code,
        error_message := none }
  | .transportFailure error_message =>
      { body := none, headers := none, status_code := none,
        error_message := some error_message }

/-- The Retry Coordinator's error taxonomy (validation errors only; transport
failures are recorded as data, not raised). -/
inductive RetryError where
  | NotFound
  | InvalidState
  deriving DecidableEq, Repr

/-- Look up an event by id under the merchant scope.  A miss for "does not
exist" and for "not yours" is the same miss. -/
def findEvent (store : List Event) (merchant_id event_id : String) :
    Option Event :=
  store.find? fun e =>
    e.merchant_id == merchant_id && e.event_id == event_id

/-- Modelled from the spec: the new Event row appended by a retry.  It shares
the chain's `initial_attempt_id`, has a freshly generated `event_id` and the
current timestamp, replays the initial attempt's request content, and records
the transport's response content. -/
def mkRetryEvent (fresh_event_id : String) (now : Nat) (initial : Event)
    (response : OutgoingWebhookResponseContent) : Event :=
  { event_id := fresh_event_id
    merchant_id := initial.merchant_id
    profile_id := initial.profile_id
    object_id := initial.object_id
    event_type := initial.event_type
    event_class := initial.event_class
    is_delivery_successful := some (responseDelivered response)
    initial_attempt_id := initial.initial_attempt_id
    created := now
    request := initial.request
    response := response }

/-- Modelled from the spec: the Retry Coordinator's `retry(merchant_id,
event_id)` is not in the source slice (the slice only declares the retry
request wrapper `WebhookDeliveryRetryRequestInternal`).  It resolves the
chain under the merchant scope (`NotFound` if absent or mismatched), rejects
with `InvalidState` when the terminal attempt is `Pending` or `Delivered`,
and otherwise replays the initial attempt's request content through the
transport (`deliver`) and appends exactly one new row.  The external
id generator and clock are the `fresh_event_id` and `now` parameters. -/
def retry (deliver : OutgoingWebhookRequestContent → TransportOutcome)
    (fresh_event_id : String) (now : Nat) (merchant_id event_id : String)
    (store : List Event) : Except RetryError (Event × List Event) :=
  match findEvent store merchant_id event_id with
  | none => .error .NotFound
  | some e =>
      let chain := attempts_for store e.initial_attempt_id merchant_id
      match chain.head?, chain.getLast? with
      | some initial, some terminal =>
          match attemptState terminal with
          | .Pending => .error .InvalidState
          | .Delivered => .error .InvalidState
          | .Failed =>
              let newEvent := mkRetryEvent fresh_event_id now initial
                (responseOfOutcome (deliver initial.request))
              .ok (newEvent, store ++ [newEvent])
      | _, _ => .error .NotFound

/-- The store as left by a retry call: on success the returned store, on a
validation error the original store (validation errors perform no write). -/
def retryStore (store : List Event)
    (r : Except RetryError (Event × List Event)) : List Event :=
  match r with
  | .ok (_, store') => store'
  | .error _ => store

/-! ## Concrete instances used to evaluate the definitions -/

/-- A concrete request content: the initial attempt's payload and headers. -/
def reqInitial : OutgoingWebhookRequestContent :=
  { body := ⟨"payload-initial"⟩
    headers := [("content-type", ⟨"application/json"⟩)] }

/-- A concrete request content differing from `reqInitial`, standing for a
stale later attempt's payload. -/
def reqStale : OutgoingWebhookRequestContent :=
  { body := ⟨"payload-stale"⟩, headers := [] }

/-- A completed response with a non-success status code. -/
def respFailed : OutgoingWebhookResponseContent :=
  { body := none, headers := none, status_code := some 500,
    error_message := none }

/-- A completed response with a success status code and no error. -/
def respDelivered : OutgoingWebhookResponseContent :=
  { body := some ⟨"ok"⟩, headers := none, status_code := some 200,
    error_message := none }

/-- A chain's initial attempt, failed. -/
def eventE1 : Event :=
  { event_id := "evt_1", merchant_id := "m1", profile_id := "p1",
    object_id := "pay_123", event_type := .PaymentFailed,
    event_class := .Payments, is_delivery_successful := some false,
    initial_attempt_id := "evt_1", created := 1,
    request := reqInitial, response := respFailed }

/-- A failed retry of `eventE1`, created later, with stale request content. -/
def eventE2 : Event :=
  { eventE1 with event_id := "evt_2", created := 2, request := reqStale }

/-- An event owned by a different merchant. -/
def eventOtherMerchant : Event :=
  { eventE1 with
    event_id := "evt_3"
    merchant_id := "m2"
    initial_attempt_id := "evt_3" }

/-- A single-attempt chain that was delivered successfully. -/
def eventDelivered : Event :=
  { eventE1 with
    event_id := "evt_4"
    initial_attempt_id := "evt_4"
    response := respDelivered
    is_delivery_successful := some true }

/-- A single-attempt chain still in flight (no response field populated). -/
def eventInFlight : Event :=
  { eventE1 with
    event_id := "evt_5"
    initial_attempt_id := "evt_5"
    response := pendingResponse
    is_delivery_successful := none }

/-! ## Helper lemmas about the insertion sort -/

theorem mem_insertLe {α : Type} (le : α → α → Bool) (a x : α) (l : List α) :
    x ∈ insertLe le a l ↔ x = a ∨ x ∈ l := by
  induction l with
  | nil => simp [insertLe]
  | cons b bs ih =>
      simp only [insertLe]
      cases hab : le a b
      · rw [if_neg Bool.false_ne_true]
        simp only [List.mem_cons, ih]
        tauto
      · rw [if_pos rfl]
        simp only [List.mem_cons]

theorem mem_sortLe {α : Type} (le : α → α → Bool) (x : α) (l : List α) :
    x ∈ sortLe le l ↔ x ∈ l := by
  induction l with
  | nil => simp [sortLe]
  | cons a as ih =>
      simp [sortLe, mem_insertLe, ih, List.mem_cons]

theorem length_insertLe {α : Type} (le : α → α → Bool) (a : α) (l : List α) :
    (insertLe le a l).length = l.length + 1 := by
  induction l with
  | nil => simp [insertLe]
  | cons b bs ih =>
      simp only [insertLe]
      cases hab : le a b
      · rw [if_neg Bool.false_ne_true]
        simp [ih]
      · rw [if_pos rfl]
        simp

theorem length_sortLe {α : Type} (le : α → α → Bool) (l : List α) :
    (sortLe le l).length = l.length := by
  induction l with
  | nil => rfl
  | cons a as ih => simp [sortLe, length_insertLe, ih]

theorem pairwise_insertLe {α : Type} (le : α → α → Bool)
    (htot : ∀ a b, le a b = true ∨ le b a = true)
    (htrans : ∀ a b c, le a b = true → le b c = true → le a c = true)
    (a : α) (l : List α)
    (hl : l.Pairwise fun x y => le x y = true) :
    (insertLe le a l).Pairwise fun x y => le x y = true := by
  induction l with
  | nil => simp [insertLe]
  | cons b bs ih =>
      rcases List.pairwise_cons.mp hl with ⟨hb, hbs⟩
      simp only [insertLe]
      cases hab : le a b
      · have hba : le b a = true := by
          rcases htot a b with h' | h'
          · rw [hab] at h'
            exact absurd h' (by simp)
          · exact h'
        rw [if_neg Bool.false_ne_true]
        refine List.pairwise_cons.mpr ⟨?_, ih hbs⟩
        intro y hy
        rcases (mem_insertLe le a y bs).mp hy with rfl | hy
        · exact hba
        · exact hb y hy
      · rw [if_pos rfl]
        refine List.pairwise_cons.mpr ⟨?_, hl⟩
        intro y hy
        rcases List.mem_cons.mp hy with rfl | hy
        · exact hab
        · exact htrans a b y hab (hb y hy)

theorem pairwise_sortLe {α : Type} (le : α → α → Bool)
    (htot : ∀ a b, le a b = true ∨ le b a = true)
    (htrans : ∀ a b c, le a b = true → le b c = true → le a c = true)
    (l : List α) :
    (sortLe le l).Pairwise fun x y => le x y = true := by
  induction l with
  | nil => simp [sortLe]
  | cons a as ih => exact pairwise_insertLe le htot htrans a (sortLe le as) ih

theorem createdAsc_total (a b : Event) :
    createdAsc a b = true ∨ createdAsc b a = true := by
  simp [createdAsc]
  omega

theorem createdAsc_trans (a b c : Event) :
    createdAsc a b = true → createdAsc b c = true → createdAsc a c = true := by
  simp [createdAsc]
  omega

theorem createdDesc_total (a b : Event) :
    createdDesc a b = true ∨ createdDesc b a = true := by
  simp [createdDesc]
  omega

theorem createdDesc_trans (a b c : Event) :
    createdDesc a b = true → createdDesc b c = true → createdDesc a c = true := by
  simp [createdDesc]
  omega

/-! ## Claim theorems -/

/-- C1: Filter Resolver precedence law — for every constraint set whose
`object_id` is present and non-empty (in the spec's sense: not blank after
trimming whitespace), the resolver produces `ObjectIdFilter` carrying exactly
that `object_id`, regardless of the values of every other field; all other
fields are discarded. -/
theorem C1_resolver_object_id_precedence (c : EventListConstraints)
    (oid : String) (hpresent : c.object_id = some oid)
    (hnonempty : isBlankString oid = false) :
    resolveConstraints c = .ObjectIdFilter oid := by
  simp [resolveConstraints, hpresent, hnonempty]

/-- Witness for C1: a constraint set with every other field populated still
resolves to the object-id lookup. -/
theorem C1_resolver_object_id_precedence_witness :
    resolveConstraints
      { created_after := some 5, created_before := some 9, limit := some 10,
        offset := some 20, object_id := some "pay_123",
        profile_id := some "pro_1", event_classes := some [.Payments],
        event_types := some [.PaymentFailed], is_delivered := some false }
      = .ObjectIdFilter "pay_123" :=
  C1_resolver_object_id_precedence _ "pay_123" rfl (by decide)

/-- C5: with `object_id` absent the resolver produces `GenericFilter` with
every supplied field carried through unchanged, `limit`/`offset` widened
value-preservingly from the unsigned 16-bit range into the signed 64-bit
range, an absent `limit` meaning the store's default page size and an absent
`offset` meaning zero. -/
theorem C5_resolver_generic_preserves_fields (c : EventListConstraints)
    (habsent : c.object_id = none) :
    resolveConstraints c = .GenericFilter c.created_after c.created_before
        (c.limit.map Int.ofNat) (c.offset.map Int.ofNat)
        c.event_classes c.event_types c.is_delivered ∧
    (∀ v : Nat, v < 2 ^ 16 →
      Option.map Int.ofNat (some v) = some (v : Int) ∧ ((v : Int)).toNat = v) ∧
    (∀ d : Nat, effectiveLimit none d = d) ∧
    effectiveOffset none = 0 := by
  refine ⟨by simp [resolveConstraints, habsent], ?_, fun d => rfl, rfl⟩
  intro v _
  exact ⟨rfl, Int.toNat_ofNat v⟩

/-- Witness for C5: a concrete constraint set without `object_id` resolves to
the generic filter with all fields preserved. -/
theorem C5_resolver_generic_preserves_fields_witness :
    resolveConstraints
      { created_after := some 1, created_before := some 2, limit := some 7,
        offset := some 3, object_id := none, profile_id := some "pro_1",
        event_classes := some [.Refunds], event_types := none,
        is_delivered := some true }
      = .GenericFilter (some 1) (some 2) (some 7) (some 3)
          (some [.Refunds]) none (some true) :=
  (C5_resolver_generic_preserves_fields _ rfl).1

/-- C8: the Filter Resolver is total — every combination of optional fields
yields one of the two strategies, never an error — and an `object_id` that is
empty after trimming whitespace is treated as absent: such a constraint set
resolves to `GenericFilter`, and `ObjectIdFilter` never carries a blank
(in particular empty) key. -/
theorem C8_resolver_total_blank_absent (c : EventListConstraints) :
    ((∃ oid, resolveConstraints c = .ObjectIdFilter oid) ∨
      resolveConstraints c = .GenericFilter c.created_after c.created_before
        (c.limit.map Int.ofNat) (c.offset.map Int.ofNat)
        c.event_classes c.event_types c.is_delivered) ∧
    (∀ oid, c.object_id = some oid → isBlankString oid = true →
      resolveConstraints c = .GenericFilter c.created_after c.created_before
        (c.limit.map Int.ofNat) (c.offset.map Int.ofNat)
        c.event_classes c.event_types c.is_delivered) ∧
    (∀ oid, resolveConstraints c = .ObjectIdFilter oid →
      isBlankString oid = false) := by
  rcases hobj : c.object_id with _ | oid
  · refine ⟨Or.inr (by simp [resolveConstraints, hobj]), ?_, ?_⟩
    · intro oid h
      exact Option.noConfusion h
    · intro oid h
      simp [resolveConstraints, hobj] at h
  · cases hb : isBlankString oid
    · refine ⟨Or.inl ⟨oid, by simp [resolveConstraints, hobj, hb]⟩, ?_, ?_⟩
      · intro oid' h hbl
        injection h with h
        subst h
        exact absurd hbl (by simp [hb])
      · intro oid' h
        simp only [resolveConstraints, hobj, hb] at h
        rw [if_neg Bool.false_ne_true] at h
        injection h with h
        subst h
        exact hb
    · refine ⟨Or.inr ?_, ?_, ?_⟩
      · simp [resolveConstraints, hobj, hb]
      · intro oid' h _
        injection h with h
        subst h
        simp [resolveConstraints, hobj, hb]
      · intro oid' h
        simp [resolveConstraints, hobj, hb] at h

/-- Witness for C8: a whitespace-only `object_id` is treated as absent and
resolves to the generic filter. -/
theorem C8_resolver_total_blank_absent_witness :
    resolveConstraints
      { created_after := none, created_before := none, limit := none,
        offset := none, object_id := some " ", profile_id := none,
        event_classes := none, event_types := none, is_delivered := none }
      = .GenericFilter none none none none none none none :=
  (C8_resolver_total_blank_absent _).2.1 " " rfl (by decide)

/-- C9: delivery-attempt response invariant — the response fields (payload,
headers, HTTP status code, error message) are all simultaneously absent
exactly when the attempt has not yet completed; every transport outcome
(success, HTTP error, or transport failure) populates at least one response
field. -/
theorem C9_response_fields_absent_iff_incomplete :
    responseCompleted pendingResponse = false ∧
    (∀ outcome : TransportOutcome,
      responseCompleted (responseOfOutcome outcome) = true) ∧
    (∀ r : OutgoingWebhookResponseContent, responseCompleted r = false →
      r = pendingResponse) := by
  refine ⟨rfl, ?_, ?_⟩
  · intro outcome
    cases outcome <;> simp [responseCompleted, responseOfOutcome]
  · intro r h
    rcases r with ⟨b, hs, sc, em⟩
    cases b <;> cases hs <;> cases sc <;> cases em <;>
      simp_all [responseCompleted, pendingResponse]

/-- Witness for C9: a transport failure populates a response field, and a
response with every field absent is the not-yet-completed response. -/
theorem C9_response_fields_absent_iff_incomplete_witness :
    responseCompleted (responseOfOutcome (.transportFailure "timed out"))
        = true ∧
    ({ body := none, headers := none, status_code := none,
       error_message := none } : OutgoingWebhookResponseContent)
      = pendingResponse :=
  ⟨C9_response_fields_absent_iff_incomplete.2.1 (.transportFailure "timed out"),
   C9_response_fields_absent_iff_incomplete.2.2 _ rfl⟩

/-- C10: `TotalEventsResponse::get_api_event_type` returns `none` when the
response's events list is empty, and otherwise returns `some` of an `Events`
metric carrying the `merchant_id` of the first event in the list. -/
theorem C10_get_api_event_type_first_merchant (r : TotalEventsResponse) :
    (r.events = [] → r.get_api_event_type = none) ∧
    (∀ e rest, r.events = e :: rest →
      r.get_api_event_type = some (.Events e.merchant_id)) := by
  constructor
  · intro h
    simp [TotalEventsResponse.get_api_event_type, h]
  · intro e rest h
    simp [TotalEventsResponse.get_api_event_type, h]

/-- Witness for C10: an empty listing response produces no API event metric,
and a one-element response produces the metric of its first event. -/
theorem C10_get_api_event_type_first_merchant_witness :
    TotalEventsResponse.get_api_event_type
        { events := [], total_count := 0 } = none ∧
    TotalEventsResponse.get_api_event_type
        { events := [Event.toListItem eventE1], total_count := 1 }
      = some (.Events (Event.toListItem eventE1).merchant_id) :=
  ⟨(C10_get_api_event_type_first_merchant _).1 rfl,
   (C10_get_api_event_type_first_merchant _).2 (Event.toListItem eventE1) []
      rfl⟩

/-- C4: tenant isolation of listing — for every merchant identifier and every
resolved strategy (generic or object-id), every event returned by
`listEvents` is owned by that merchant; an event owned by a different
merchant is never included. -/
theorem C4_tenant_isolation (default_limit : Nat) (mid : String)
    (strategy : EventListConstraintsInternal) (store : List Event) :
    ∀ item ∈ (listEvents default_limit mid strategy store).events,
      item.merchant_id = mid := by
  intro item hitem
  cases strategy with
  | GenericFilter created_after created_before limit offset event_classes
      event_types is_delivered =>
      simp only [listEvents, TotalEventsResponse.new] at hitem
      rcases List.mem_map.mp hitem with ⟨e, he, rfl⟩
      have he1 : e ∈ (sortLe createdDesc (store.filter fun x =>
          x.merchant_id == mid &&
            matchesGeneric created_after created_before event_classes
              event_types is_delivered x)).drop (effectiveOffset offset) :=
        List.take_subset _ _ he
      have he2 : e ∈ sortLe createdDesc (store.filter fun x =>
          x.merchant_id == mid &&
            matchesGeneric created_after created_before event_classes
              event_types is_delivered x) :=
        List.drop_subset _ _ he1
      have he3 := (mem_sortLe _ _ _).mp he2
      have := List.mem_filter.mp he3
      simp only [Bool.and_eq_true, beq_iff_eq] at this
      exact this.2.1
  | ObjectIdFilter object_id =>
      simp only [listEvents, TotalEventsResponse.new] at hitem
      rcases List.mem_map.mp hitem with ⟨e, he, rfl⟩
      have he2 := (mem_sortLe _ _ _).mp he
      have := List.mem_filter.mp he2
      simp only [Bool.and_eq_true, beq_iff_eq] at this
      exact this.2.1

/-- Witness for C4: with a store holding events of two merchants, every item
listed for merchant `m1` carries `m1`. -/
theorem C4_tenant_isolation_witness :
    (Event.toListItem eventE1).merchant_id = "m1" :=
  C4_tenant_isolation 50 "m1"
    (.GenericFilter none none none none none none none)
    [eventE1, eventOtherMerchant] (Event.toListItem eventE1) (by decide)

/-- C6: chain-resolution invariant — for a well-formed store, every non-empty
chain returned by `attempts_for` is ordered ascending by creation time, and
its first element's `event_id` equals the chain's `initial_attempt_id`. -/
theorem C6_chain_head_is_initial (store : List Event) (iid mid : String)
    (initial : Event) (rest : List Event)
    (hwf : WellFormedStore store)
    (hchain : attempts_for store iid mid = initial :: rest) :
    initial.event_id = iid ∧
    (initial :: rest).Pairwise fun a b => a.created ≤ b.created := by
  have hsorted : (attempts_for store iid mid).Pairwise
      fun a b => createdAsc a b = true :=
    pairwise_sortLe _ createdAsc_total createdAsc_trans _
  rw [hchain] at hsorted
  have hsorted' : (initial :: rest).Pairwise fun a b => a.created ≤ b.created := by
    refine hsorted.imp ?_
    intro a b h
    simpa [createdAsc] using h
  refine ⟨?_, hsorted'⟩
  have hmemchain : initial ∈ attempts_for store iid mid := by
    rw [hchain]
    exact List.mem_cons_self _ _
  have hmem : initial ∈ store.filter fun x =>
      x.merchant_id == mid && x.initial_attempt_id == iid :=
    (mem_sortLe _ _ _).mp hmemchain
  have hfacts := List.mem_filter.mp hmem
  have hin : initial ∈ store := hfacts.1
  have hconds := hfacts.2
  simp only [Bool.and_eq_true, beq_iff_eq] at hconds
  obtain ⟨hmid, hiid⟩ := hconds
  obtain ⟨e0, he0in, he0id, he0own, he0mid, he0created⟩ := hwf initial hin
  have he0id' : e0.event_id = iid := by rw [he0id, hiid]
  have he0filter : e0 ∈ store.filter fun x =>
      x.merchant_id == mid && x.initial_attempt_id == iid := by
    refine List.mem_filter.mpr ⟨he0in, ?_⟩
    simp only [Bool.and_eq_true, beq_iff_eq]
    exact ⟨by rw [he0mid, hmid], by rw [he0own, he0id']⟩
  have he0chain : e0 ∈ initial :: rest := by
    rw [← hchain]
    exact (mem_sortLe _ _ _).mpr he0filter
  by_cases heq : initial.event_id = e0.event_id
  · rw [heq, he0id']
  · exfalso
    have hlt : e0.created < initial.created := he0created heq
    rcases List.mem_cons.mp he0chain with h | h
    · rw [h] at hlt
      omega
    · have hle : initial.created ≤ e0.created :=
        (List.pairwise_cons.mp hsorted').1 e0 h
      omega

/-- Witness for C6: the chain of `evt_1` under merchant `m1` in a concrete
well-formed store starts with the initial attempt. -/
theorem C6_chain_head_is_initial_witness :
    eventE1.event_id = "evt_1" ∧
    ([eventE1, eventE2].Pairwise fun a b => a.created ≤ b.created) :=
  C6_chain_head_is_initial [eventE1, eventE2] "evt_1" "m1" eventE1 [eventE2]
    (by unfold WellFormedStore; decide) (by decide)

/-- C7: Event Lister pagination and counting for `GenericFilter` — the
returned items are exactly the merchant's events matching all supplied
predicates AND-combined, ordered by creation time descending, with `offset`
applied before `limit` (at most the effective limit of rows, skipping the
first `offset` matching rows), while `total_count` equals the number of
matching events before `limit` and `offset` are applied. -/
theorem C7_generic_pagination_and_count (default_limit : Nat) (mid : String)
    (created_after created_before : Option Nat) (limit offset : Option Int)
    (event_classes : Option (List EventClass))
    (event_types : Option (List EventType)) (is_delivered : Option Bool)
    (store : List Event) :
    (∀ item ∈ (listEvents default_limit mid
        (.GenericFilter created_after created_before limit offset
          event_classes event_types is_delivered) store).events,
      ∃ e ∈ store, e.merchant_id = mid ∧
        matchesGeneric created_after created_before event_classes event_types
          is_delivered e = true ∧ item = e.toListItem) ∧
    (listEvents default_limit mid
        (.GenericFilter created_after created_before limit offset
          event_classes event_types is_delivered) store).events.length
      ≤ effectiveLimit limit default_limit ∧
    (listEvents default_limit mid
        (.GenericFilter created_after created_before limit offset
          event_classes event_types is_delivered) store).events.Pairwise
      (fun a b => b.created ≤ a.created) ∧
    (listEvents default_limit mid
        (.GenericFilter created_after created_before limit offset
          event_classes event_types is_delivered) store).total_count
      = (store.countP fun e => e.merchant_id == mid &&
          matchesGeneric created_after created_before event_classes
            event_types is_delivered e) ∧
    (listEvents default_limit mid
        (.GenericFilter created_after created_before limit offset
          event_classes event_types is_delivered) store).events
      = (((sortLe createdDesc (store.filter fun e =>
            e.merchant_id == mid &&
              matchesGeneric created_after created_before event_classes
                event_types is_delivered e)).drop
          (effectiveOffset offset)).take
            (effectiveLimit limit default_limit)).map Event.toListItem := by
  refine ⟨?_, ?_, ?_, ?_, by simp [listEvents, TotalEventsResponse.new]⟩
  · intro item hitem
    simp only [listEvents, TotalEventsResponse.new] at hitem
    rcases List.mem_map.mp hitem with ⟨e, he, rfl⟩
    have he1 := List.take_subset _ _ he
    have he2 := List.drop_subset _ _ he1
    have he3 := (mem_sortLe _ _ _).mp he2
    have hfacts := List.mem_filter.mp he3
    have hconds := hfacts.2
    simp only [Bool.and_eq_true, beq_iff_eq] at hconds
    exact ⟨e, hfacts.1, hconds.1, hconds.2, rfl⟩
  · simp only [listEvents, TotalEventsResponse.new, List.length_map]
    exact List.length_take_le _ _
  · simp only [listEvents, TotalEventsResponse.new]
    rw [List.pairwise_map]
    have hsorted : (sortLe createdDesc (store.filter fun e =>
        e.merchant_id == mid &&
          matchesGeneric created_after created_before event_classes
            event_types is_delivered e)).Pairwise
        (fun a b => createdDesc a b = true) :=
      pairwise_sortLe _ createdDesc_total createdDesc_trans _
    have hsub : ((((sortLe createdDesc (store.filter fun e =>
        e.merchant_id == mid &&
          matchesGeneric created_after created_before event_classes
            event_types is_delivered e)).drop
          (effectiveOffset offset)).take
            (effectiveLimit limit default_limit))).Sublist
        (sortLe createdDesc (store.filter fun e =>
          e.merchant_id == mid &&
            matchesGeneric created_after created_before event_classes
              event_types is_delivered e)) :=
      (List.take_sublist _ _).trans (List.drop_sublist _ _)
    refine (hsorted.sublist hsub).imp ?_
    intro a b h
    simpa [createdDesc, Event.toListItem] using h
  · simp only [listEvents, TotalEventsResponse.new]
    rw [← List.countP_eq_length_filter]

/-- Witness for C7: the scenario `limit := 10`, `offset := 0`,
`event_classes := [Payments]` on a concrete two-event store returns at most
the effective limit of rows. -/
theorem C7_generic_pagination_and_count_witness :
    (listEvents 50 "m1"
        (.GenericFilter none none (some 10) (some 0) (some [.Payments]) none
          (some false)) [eventE1, eventE2, eventOtherMerchant]).events.length
      ≤ effectiveLimit (some 10) 50 :=
  (C7_generic_pagination_and_count 50 "m1" none none (some 10) (some 0)
    (some [.Payments]) none (some false)
    [eventE1, eventE2, eventOtherMerchant]).2.1

/-- C2: for every event whose attempt chain's terminal attempt is `Failed`,
`retry` appends exactly one new Event row sharing the chain's
`initial_attempt_id`, with the freshly generated distinct `event_id` and a
creation timestamp later than every prior attempt of the chain, and whose
request content equals that of the chain's first (initial) attempt.  The id
generator and clock are external; their freshness is the `hfresh`/`hlater`
hypotheses. -/
theorem C2_retry_failed_appends_one
    (deliver : OutgoingWebhookRequestContent → TransportOutcome)
    (fresh : String) (now : Nat) (mid eid : String) (store : List Event)
    (e initial terminal : Event) (rest : List Event)
    (hfind : findEvent store mid eid = some e)
    (hchain : attempts_for store e.initial_attempt_id mid = initial :: rest)
    (hlast : (initial :: rest).getLast? = some terminal)
    (hterm : attemptState terminal = .Failed)
    (hfresh : ∀ x ∈ store, x.event_id ≠ fresh)
    (hlater : ∀ x ∈ initial :: rest, x.created < now) :
    ∃ newEvent,
      retry deliver fresh now mid eid store
          = .ok (newEvent, store ++ [newEvent]) ∧
      newEvent.initial_attempt_id = e.initial_attempt_id ∧
      newEvent.event_id = fresh ∧
      (∀ x ∈ store, x.event_id ≠ newEvent.event_id) ∧
      (∀ x ∈ initial :: rest, x.created < newEvent.created) ∧
      newEvent.request = initial.request := by
  have hmemchain : initial ∈ attempts_for store e.initial_attempt_id mid := by
    rw [hchain]
    exact List.mem_cons_self _ _
  have hmem : initial ∈ store.filter fun x =>
      x.merchant_id == mid && x.initial_attempt_id == e.initial_attempt_id :=
    (mem_sortLe _ _ _).mp hmemchain
  have hconds := (List.mem_filter.mp hmem).2
  simp only [Bool.and_eq_true, beq_iff_eq] at hconds
  refine ⟨mkRetryEvent fresh now initial
      (responseOfOutcome (deliver initial.request)), ?_, ?_, rfl, ?_, ?_, rfl⟩
  · simp only [retry, hfind, hchain, List.head?_cons, hlast, hterm]
  · simpa [mkRetryEvent] using hconds.2
  · intro x hx
    simpa [mkRetryEvent] using hfresh x hx
  · intro x hx
    simpa [mkRetryEvent] using hlater x hx

/-- Witness for C2: retrying `evt_2` on the concrete chain
`[evt_1 (Failed), evt_2 (Failed)]` appends one new row replaying `evt_1`'s
request content. -/
theorem C2_retry_failed_appends_one_witness :
    ∃ newEvent,
      retry (fun _ => .httpError 503 none none) "evt_new" 10 "m1" "evt_2"
          [eventE1, eventE2]
        = .ok (newEvent, [eventE1, eventE2] ++ [newEvent]) ∧
      newEvent.initial_attempt_id = eventE2.initial_attempt_id ∧
      newEvent.event_id = "evt_new" ∧
      (∀ x ∈ [eventE1, eventE2], x.event_id ≠ newEvent.event_id) ∧
      (∀ x ∈ [eventE1, eventE2], x.created < newEvent.created) ∧
      newEvent.request = eventE1.request :=
  C2_retry_failed_appends_one (fun _ => .httpError 503 none none) "evt_new" 10
    "m1" "evt_2" [eventE1, eventE2] eventE2 eventE1 eventE2 [eventE2]
    (by decide) (by decide) (by decide) (by decide) (by decide) (by decide)

/-- C3: for every event whose attempt chain's terminal attempt is `Pending`
or `Delivered`, `retry` returns the `InvalidState` error and leaves the event
store unchanged, and does so for every possible transport — the rejection
happens before any external transport call. -/
theorem C3_retry_invalid_state_rejects
    (fresh : String) (now : Nat) (mid eid : String) (store : List Event)
    (e initial terminal : Event) (rest : List Event)
    (hfind : findEvent store mid eid = some e)
    (hchain : attempts_for store e.initial_attempt_id mid = initial :: rest)
    (hlast : (initial :: rest).getLast? = some terminal)
    (hstate : attemptState terminal = .Pending ∨
      attemptState terminal = .Delivered) :
    ∀ deliver : OutgoingWebhookRequestContent → TransportOutcome,
      retry deliver fresh now mid eid store = .error .InvalidState ∧
      retryStore store (retry deliver fresh now mid eid store) = store := by
  intro deliver
  have h : retry deliver fresh now mid eid store = .error .InvalidState := by
    rcases hstate with h | h <;>
      simp only [retry, hfind, hchain, List.head?_cons, hlast, h]
  exact ⟨h, by rw [h]; rfl⟩

/-- Witness for C3: retrying the delivered single-attempt chain `evt_4`
returns `InvalidState` and leaves the store unchanged, under a concrete
transport. -/
theorem C3_retry_invalid_state_rejects_witness :
    retry (fun _ => .transportFailure "down") "evt_new" 10 "m1" "evt_4"
        [eventDelivered]
      = .error .InvalidState ∧
    retryStore [eventDelivered]
        (retry (fun _ => .transportFailure "down") "evt_new" 10 "m1" "evt_4"
          [eventDelivered])
      = [eventDelivered] :=
  C3_retry_invalid_state_rejects "evt_new" 10 "m1" "evt_4" [eventDelivered]
    eventDelivered eventDelivered eventDelivered []
    (by decide) (by decide) (by decide) (Or.inr (by decide))
    (fun _ => .transportFailure "down")
